import Mathlib

/-!
Verification of the location-gated authentication workflow of the FMF gym
dashboard: the `secure-login` and `resolve-access-request` edge functions and
the `profiles` / `allowed_ips` / `access_requests` tables they operate on
(migration `20250621021110_cool_butterfly.sql`).

The embedding is a shallow one: the database is a record of row lists, a uuid
generator and a clock; each edge-function handler is a pure function from its
request data and the database to an HTTP response plus the updated database.
`uuid` and `timestamptz` values are modelled as natural numbers; JSON response
bodies are records whose absent fields are `none`.
-/

/-- Database `uuid` values, modelled as natural numbers drawn from a counter. -/
abbrev Uuid := Nat

/-- Row of the `profiles` table: `id` (PK), `full_name`, `role`
(CHECK role IN ('ADMIN','CS')), `is_active`. -/
structure Profile where
  id : Uuid
  full_name : String
  role : String
  is_active : Bool
deriving Repr, DecidableEq

/-- Row of the `allowed_ips` table: `id` (PK), `ip_address` (UNIQUE NOT NULL),
`description`, `created_by`. -/
structure AllowedIp where
  id : Uuid
  ip_address : String
  description : Option String
  created_by : Option Uuid
deriving Repr, DecidableEq

/-- Row of the `access_requests` table: `id` (PK), `profile_id`, `ip_address`,
`status` (CHECK status IN ('PENDING','APPROVED','DENIED')), `requested_at`,
`resolved_at`, `resolved_by`. -/
structure AccessRequest where
  id : Uuid
  profile_id : Uuid
  ip_address : String
  status : String
  requested_at : Nat
  resolved_at : Option Nat
  resolved_by : Option Uuid
deriving Repr, DecidableEq

/-- The shared registry state: the three tables the workflow touches, the uuid
generator (`uuid_generate_v4` default) and the clock (`now()` default). -/
structure DB where
  profiles : List Profile
  allowed_ips : List AllowedIp
  access_requests : List AccessRequest
  nextId : Uuid
  now : Nat
deriving Repr, DecidableEq

/-- Column sets on which the migrations declare uniqueness for the
`access_requests` table: only the `id` primary key. The DDL declares no
unique index on `(profile_id, ip_address)` or `(profile_id, ip_address,
status)`. -/
def accessRequestsUniqueColumns : List (List String) := [["id"]]

/-- The projection `select role, full_name` that the secure-login handler
performs on the fetched profile row. -/
structure ProfileView where
  role : String
  full_name : String
deriving Repr, DecidableEq

/-- Outcome of a successful `signInWithPassword` call made by the handler: the
authenticated user id and the minted session token. -/
structure AuthUser where
  id : Uuid
  session : String
deriving Repr, DecidableEq

/-- A JSON response body together with its HTTP status code. Fields absent
from the body are `none`; `statusField` models the body key `status` and
`resolved_at` models the body key `resolved_at` (whose value may itself be the
SQL NULL, hence the nested option). -/
structure HttpResponse where
  code : Nat
  success : Option Bool := none
  user : Option Uuid := none
  profile : Option ProfileView := none
  session : Option String := none
  statusField : Option String := none
  message : Option String := none
  request_id : Option Uuid := none
  error : Option String := none
  resolved_at : Option (Option Nat) := none
  action : Option String := none
deriving Repr, DecidableEq

/-- Semantics of a supabase-js `select ... .single()` call: the row when the
query matches exactly one row, otherwise an error, which every call site reads
as a null `data`. -/
def selectSingle (p : α → Bool) (rows : List α) : Option α :=
  match rows.filter p with
  | [r] => some r
  | _ => none

/-- The 401 response `{ error: 'Invalid credentials' }`. -/
def invalidCredentialsResp : HttpResponse :=
  { code := 401, error := some "Invalid credentials" }

/-- The 404 response `{ error: 'Profile not found' }`. -/
def profileNotFoundResp : HttpResponse :=
  { code := 404, error := some "Profile not found" }

/-- The 200 response `{ success: true, user, profile, session }`. -/
def grantedResp (u : AuthUser) (p : ProfileView) : HttpResponse :=
  { code := 200, success := some true, user := some u.id, profile := some p,
    session := some u.session }

/-- The 200 response `{ success: false, status: 'PENDING_APPROVAL', message,
request_id }`. -/
def deferredResp (reqId : Uuid) : HttpResponse :=
  { code := 200, success := some false, statusField := some "PENDING_APPROVAL",
    message := some "Access request pending admin approval",
    request_id := some reqId }

/-- The 403 response `{ error: 'Invalid user role' }`. -/
def invalidRoleResp : HttpResponse :=
  { code := 403, error := some "Invalid user role" }

/-- The secure-login pending-request check (step 4b, first half): the select
on `access_requests` filtered by `profile_id`, `ip_address` and
`status = 'PENDING'`, read through `.single()`; the handler keeps only the
`id`. -/
def pendingCheck (uid : Uuid) (ip : String) (db : DB) : Option Uuid :=
  (selectSingle
    (fun r => r.profile_id == uid && r.ip_address == ip && r.status == "PENDING")
    db.access_requests).map (fun r => r.id)

/-- The secure-login pending-request insert (step 4b, second half): insert a
new `access_requests` row with status `'PENDING'`, the `id` and
`requested_at` defaults filled by the database, returning the new id. -/
def pendingInsert (uid : Uuid) (ip : String) (db : DB) : Uuid × DB :=
  let newReq : AccessRequest :=
    { id := db.nextId, profile_id := uid, ip_address := ip,
      status := "PENDING", requested_at := db.now,
      resolved_at := none, resolved_by := none }
  (db.nextId,
   { db with access_requests := db.access_requests ++ [newReq],
             nextId := db.nextId + 1 })

/-- The POST branch of the secure-login handler, after `signInWithPassword`
has produced `authResult` (`none` models `authError`). Mirrors the handler:
401 on auth failure; profile fetch via `.single()` with 404 on failure;
unconditional grant for role ADMIN; for role CS an `allowed_ips` lookup, then
the pending-request check-then-insert and the deferred response; 403 for any
other role. The insert cannot fail in this sequential model, so the handler's
500 branch is unreachable here. -/
def secureLoginPost (authResult : Option AuthUser) (ip_address : String)
    (db : DB) : HttpResponse × DB :=
  match authResult with
  | none => (invalidCredentialsResp, db)
  | some authData =>
    match selectSingle (fun p => p.id == authData.id) db.profiles with
    | none => (profileNotFoundResp, db)
    | some profileRow =>
      let profile : ProfileView :=
        { role := profileRow.role, full_name := profileRow.full_name }
      if profile.role == "ADMIN" then
        (grantedResp authData profile, db)
      else if profile.role == "CS" then
        match selectSingle (fun a => a.ip_address == ip_address) db.allowed_ips with
        | some _ => (grantedResp authData profile, db)
        | none =>
          match pendingCheck authData.id ip_address db with
          | some reqId => (deferredResp reqId, db)
          | none =>
            let ins := pendingInsert authData.id ip_address db
            (deferredResp ins.1, ins.2)
      else
        (invalidRoleResp, db)

/-- `attemptLogin`: the POST secure-login endpoint with the identity store
abstracted as a function from credentials to an optional authenticated user. -/
def attemptLogin (authStore : String → String → Option AuthUser)
    (email password ip : String) (db : DB) : HttpResponse × DB :=
  secureLoginPost (authStore email password) ip db

/-- The GET `/status/{request_id}` branch of the secure-login handler: a
`select status, resolved_at ... .single()` on `access_requests`, answering 404
`{ error: 'Request not found' }` on error and `{ status, resolved_at }`
otherwise. -/
def getRequestStatus (request_id : Uuid) (db : DB) : HttpResponse × DB :=
  match selectSingle (fun r => r.id == request_id) db.access_requests with
  | none => ({ code := 404, error := some "Request not found" }, db)
  | some r =>
    ({ code := 200, statusField := some r.status,
       resolved_at := some r.resolved_at }, db)

/-- JavaScript `toLowerCase()` as the handler applies it to the action string,
character by character. -/
def toLowerCase (s : String) : String :=
  ⟨s.data.map Char.toLower⟩

/-- The `allowed_ips` insert performed on APPROVE. The table's UNIQUE
constraint on `ip_address` makes the insert fail when the address is already
listed; the handler logs that error and continues, so the failure leaves the
table unchanged. -/
def insertAllowedIp (ip : String) (uid : Uuid) (db : DB) : DB :=
  if db.allowed_ips.any (fun a => a.ip_address == ip) then db
  else
    { db with
        allowed_ips := db.allowed_ips ++
          [{ id := db.nextId, ip_address := ip,
             description := some "Auto-approved for CS user access",
             created_by := some uid }],
        nextId := db.nextId + 1 }

/-- The resolve-access-request handler. `resolverUser` is the outcome of
`auth.getUser` on the bearer credential (`none` covers both the missing-header
and invalid-token 401s). Mirrors the handler order: admin check via a profile
`.single()` fetch, action validation, request fetch with 404 on error, the
already-resolved 400 guard, the status update stamped with `resolved_at` and
`resolved_by`, the best-effort `allowed_ips` insert on APPROVE, and the
`{ success: true, action, message }` response. -/
def resolveRequest (resolverUser : Option Uuid) (request_id : Uuid)
    (action : String) (db : DB) : HttpResponse × DB :=
  match resolverUser with
  | none => ({ code := 401, error := some "Invalid authentication" }, db)
  | some uid =>
    match selectSingle (fun p => p.id == uid) db.profiles with
    | none => ({ code := 403, error := some "Admin access required" }, db)
    | some profileRow =>
      if profileRow.role != "ADMIN" then
        ({ code := 403, error := some "Admin access required" }, db)
      else if !(action == "APPROVE" || action == "DENY") then
        ({ code := 400, error := some "Invalid request parameters" }, db)
      else
        match selectSingle (fun r => r.id == request_id) db.access_requests with
        | none => ({ code := 404, error := some "Access request not found" }, db)
        | some accessRequest =>
          if accessRequest.status != "PENDING" then
            ({ code := 400, error := some "Request already resolved" }, db)
          else
            let newStatus := if action == "APPROVE" then "APPROVED" else "DENIED"
            let db1 :=
              { db with access_requests := db.access_requests.map (fun r =>
                  if r.id == request_id then
                    { r with status := newStatus, resolved_at := some db.now,
                             resolved_by := some uid }
                  else r) }
            let db2 := if action == "APPROVE" then
                insertAllowedIp accessRequest.ip_address uid db1
              else db1
            ({ code := 200, success := some true, action := some action,
               message := some ("Access request " ++ toLowerCase action ++
                 "d successfully") }, db2)

/-! Concrete fixtures used by witness theorems: the demo ADMIN and CS staff of
the repository's seed instructions, an empty registry, and an identity store
accepting their demo credentials. -/

/-- The demo ADMIN staff profile. -/
def adminProfileEx : Profile :=
  { id := 1, full_name := "Admin User", role := "ADMIN", is_active := true }

/-- The demo CS staff profile. -/
def csProfileEx : Profile :=
  { id := 2, full_name := "Customer Service", role := "CS", is_active := true }

/-- A registry holding the two demo profiles, no allowed addresses and no
access requests. -/
def baseDb : DB :=
  { profiles := [adminProfileEx, csProfileEx], allowed_ips := [],
    access_requests := [], nextId := 100, now := 50 }

/-- An identity store accepting the two demo credential pairs. -/
def okAuth : String → String → Option AuthUser := fun e p =>
  if e == "admin@fmf.com" && p == "password123" then
    some { id := 1, session := "sess-admin" }
  else if e == "cs@fmf.com" && p == "password123" then
    some { id := 2, session := "sess-cs" }
  else none

/-- Claim C2: when credential verification fails, `attemptLogin` answers the
fixed 401 `Invalid credentials` response and leaves the registry unchanged,
for every registry content — so the outcome is never Deferred and reveals no
role or address information. -/
theorem c2_invalid_credentials_rejected
    (authStore : String → String → Option AuthUser)
    (email password ip : String) (db : DB)
    (h : authStore email password = none) :
    attemptLogin authStore email password ip db = (invalidCredentialsResp, db) ∧
    (attemptLogin authStore email password ip db).1.statusField
      ≠ some "PENDING_APPROVAL" := by
  have h1 : attemptLogin authStore email password ip db
      = (invalidCredentialsResp, db) := by
    unfold attemptLogin secureLoginPost
    rw [h]
  refine ⟨h1, ?_⟩
  rw [h1]
  simp [invalidCredentialsResp]

/-- Witness for C2: a wrong password on the demo registry yields the 401
response and leaves the registry as it was. -/
theorem c2_invalid_credentials_rejected_witness :
    attemptLogin okAuth "cs@fmf.com" "wrong" "10.0.0.5" baseDb
      = (invalidCredentialsResp, baseDb) :=
  (c2_invalid_credentials_rejected okAuth "cs@fmf.com" "wrong" "10.0.0.5" baseDb
    (by decide)).1

/-- Claim C3: an ADMIN profile with correct credentials is granted for every
client address, with response built from identity, profile view and session,
and the registry is returned unchanged — the equation holds for arbitrary
`allowed_ips` and `access_requests` contents, so neither table is consulted
and nothing is mutated. -/
theorem c3_admin_granted_any_address
    (authStore : String → String → Option AuthUser)
    (email password ip : String) (db : DB) (u : AuthUser) (prof : Profile)
    (hauth : authStore email password = some u)
    (hprof : selectSingle (fun p => p.id == u.id) db.profiles = some prof)
    (hrole : prof.role = "ADMIN") :
    attemptLogin authStore email password ip db
      = (grantedResp u { role := prof.role, full_name := prof.full_name }, db) := by
  simp [attemptLogin, secureLoginPost, hauth, hprof, hrole]

/-- Witness for C3: the demo ADMIN with correct credentials is granted from
the literal address `unknown` on a registry with empty allowed list. -/
theorem c3_admin_granted_any_address_witness :
    attemptLogin okAuth "admin@fmf.com" "password123" "unknown" baseDb
      = (grantedResp { id := 1, session := "sess-admin" }
          { role := "ADMIN", full_name := "Admin User" }, baseDb) :=
  c3_admin_granted_any_address okAuth "admin@fmf.com" "password123" "unknown"
    baseDb { id := 1, session := "sess-admin" } adminProfileEx
    (by decide) (by decide) rfl

/-- Every response the POST secure-login handler can produce is one of the
five return sites of the code: invalid credentials, profile not found, a
grant, a deferral, or invalid role. -/
theorem secureLoginPost_response_cases (a : Option AuthUser) (ip : String)
    (db : DB) :
    (secureLoginPost a ip db).1 = invalidCredentialsResp ∨
    (secureLoginPost a ip db).1 = profileNotFoundResp ∨
    (∃ u p, (secureLoginPost a ip db).1 = grantedResp u p) ∨
    (∃ reqId, (secureLoginPost a ip db).1 = deferredResp reqId) ∨
    (secureLoginPost a ip db).1 = invalidRoleResp := by
  simp only [secureLoginPost]
  repeat' split
  all_goals first
    | exact Or.inl rfl
    | exact Or.inr (Or.inl rfl)
    | exact Or.inr (Or.inr (Or.inl ⟨_, _, rfl⟩))
    | exact Or.inr (Or.inr (Or.inr (Or.inl ⟨_, rfl⟩)))
    | exact Or.inr (Or.inr (Or.inr (Or.inr rfl)))

/-- Claim C5: a Deferred outcome of `attemptLogin` — a response whose body
carries `status: PENDING_APPROVAL` — contains no `user`, `profile` or
`session` field; it carries only `success: false`, the pending message and a
`request_id`. -/
theorem c5_deferred_has_no_session_fields
    (authStore : String → String → Option AuthUser)
    (email password ip : String) (db : DB)
    (h : (attemptLogin authStore email password ip db).1.statusField
        = some "PENDING_APPROVAL") :
    (attemptLogin authStore email password ip db).1.user = none ∧
    (attemptLogin authStore email password ip db).1.profile = none ∧
    (attemptLogin authStore email password ip db).1.session = none ∧
    (attemptLogin authStore email password ip db).1.success = some false ∧
    (attemptLogin authStore email password ip db).1.message
      = some "Access request pending admin approval" ∧
    (attemptLogin authStore email password ip db).1.request_id.isSome = true := by
  have hcases := secureLoginPost_response_cases (authStore email password) ip db
  unfold attemptLogin at *
  rcases hcases with hc | hc | ⟨u, p, hc⟩ | ⟨reqId, hc⟩ | hc <;> rw [hc] at h ⊢
  · simp [invalidCredentialsResp] at h
  · simp [profileNotFoundResp] at h
  · simp [grantedResp] at h
  · simp [deferredResp]
  · simp [invalidRoleResp] at h

/-- Witness for C5: the demo CS user from an unlisted address is deferred and
the response carries none of the session fields. -/
theorem c5_deferred_has_no_session_fields_witness :
    (attemptLogin okAuth "cs@fmf.com" "password123" "10.0.0.5" baseDb).1.user
        = none ∧
    (attemptLogin okAuth "cs@fmf.com" "password123" "10.0.0.5" baseDb).1.profile
        = none ∧
    (attemptLogin okAuth "cs@fmf.com" "password123" "10.0.0.5" baseDb).1.session
        = none ∧
    (attemptLogin okAuth "cs@fmf.com" "password123" "10.0.0.5" baseDb).1.success
        = some false ∧
    (attemptLogin okAuth "cs@fmf.com" "password123" "10.0.0.5" baseDb).1.message
        = some "Access request pending admin approval" ∧
    (attemptLogin okAuth "cs@fmf.com" "password123"
        "10.0.0.5" baseDb).1.request_id.isSome = true :=
  c5_deferred_has_no_session_fields okAuth "cs@fmf.com" "password123"
    "10.0.0.5" baseDb (by decide)

/-- Claim C7: resolving a request whose status is not PENDING fails with the
400 `Request already resolved` response, whichever of the two actions is
requested, and returns the registry unchanged: no status, `resolved_at` or
`resolved_by` update and no `allowed_ips` insert. -/
theorem c7_already_resolved_rejected_without_mutation
    (uid reqId : Uuid) (action : String) (db : DB)
    (prof : Profile) (req : AccessRequest)
    (hprof : selectSingle (fun p => p.id == uid) db.profiles = some prof)
    (hrole : prof.role = "ADMIN")
    (haction : action = "APPROVE" ∨ action = "DENY")
    (hreq : selectSingle (fun r => r.id == reqId) db.access_requests = some req)
    (hstatus : req.status ≠ "PENDING") :
    resolveRequest (some uid) reqId action db
      = ({ code := 400, error := some "Request already resolved" }, db) := by
  rcases haction with ha | ha <;>
    simp [resolveRequest, hprof, hrole, ha, hreq, hstatus]

/-- Witness for C7: resolving an APPROVED request again, with action DENY, is
rejected and mutates nothing. -/
theorem c7_already_resolved_rejected_without_mutation_witness :
    resolveRequest (some 1) 7 "DENY"
        { baseDb with access_requests :=
            [{ id := 7, profile_id := 2, ip_address := "10.0.0.5",
               status := "APPROVED", requested_at := 10,
               resolved_at := some 20, resolved_by := some 1 }] }
      = ({ code := 400, error := some "Request already resolved" },
         { baseDb with access_requests :=
            [{ id := 7, profile_id := 2, ip_address := "10.0.0.5",
               status := "APPROVED", requested_at := 10,
               resolved_at := some 20, resolved_by := some 1 }] }) :=
  c7_already_resolved_rejected_without_mutation 1 7 "DENY" _
    adminProfileEx
    { id := 7, profile_id := 2, ip_address := "10.0.0.5",
      status := "APPROVED", requested_at := 10,
      resolved_at := some 20, resolved_by := some 1 }
    (by decide) rfl (Or.inr rfl) (by decide) (by decide)

/-- Claim C8: once the APPROVE status transition is made, `resolveRequest`
answers `{ success: true, action }` for every registry content — in
particular also when the `allowed_ips` insert fails on the table's UNIQUE
constraint because the address is already listed, in which case the failure
is swallowed and the allowed list is simply left unchanged. -/
theorem c8_approve_success_despite_ip_insert_failure
    (uid reqId : Uuid) (db : DB) (prof : Profile) (req : AccessRequest)
    (hprof : selectSingle (fun p => p.id == uid) db.profiles = some prof)
    (hrole : prof.role = "ADMIN")
    (hreq : selectSingle (fun r => r.id == reqId) db.access_requests = some req)
    (hstatus : req.status = "PENDING") :
    (resolveRequest (some uid) reqId "APPROVE" db).1
      = { code := 200, success := some true, action := some "APPROVE",
          message := some "Access request approved successfully" } ∧
    (db.allowed_ips.any (fun a => a.ip_address == req.ip_address) = true →
      ((resolveRequest (some uid) reqId "APPROVE" db).2).allowed_ips
        = db.allowed_ips) := by
  constructor
  · simp [resolveRequest, hprof, hrole, hreq, hstatus]
    decide
  · intro hdup
    simp [resolveRequest, hprof, hrole, hreq, hstatus, insertAllowedIp, hdup]

/-- Witness for C8: approving a pending request whose address is already in
`allowed_ips` (so the insert hits the UNIQUE constraint) still reports
success, and the allowed list is unchanged. -/
theorem c8_approve_success_despite_ip_insert_failure_witness :
    (resolveRequest (some 1) 7 "APPROVE"
        { baseDb with
            access_requests :=
              [{ id := 7, profile_id := 2, ip_address := "10.0.0.5",
                 status := "PENDING", requested_at := 10,
                 resolved_at := none, resolved_by := none }],
            allowed_ips :=
              [{ id := 3, ip_address := "10.0.0.5", description := none,
                 created_by := some 1 }] }).1
      = { code := 200, success := some true, action := some "APPROVE",
          message := some "Access request approved successfully" } ∧
    ((resolveRequest (some 1) 7 "APPROVE"
        { baseDb with
            access_requests :=
              [{ id := 7, profile_id := 2, ip_address := "10.0.0.5",
                 status := "PENDING", requested_at := 10,
                 resolved_at := none, resolved_by := none }],
            allowed_ips :=
              [{ id := 3, ip_address := "10.0.0.5", description := none,
                 created_by := some 1 }] }).2).allowed_ips
      = [{ id := 3, ip_address := "10.0.0.5", description := none,
           created_by := some 1 }] :=
  have h := c8_approve_success_despite_ip_insert_failure 1 7
    { baseDb with
        access_requests :=
          [{ id := 7, profile_id := 2, ip_address := "10.0.0.5",
             status := "PENDING", requested_at := 10,
             resolved_at := none, resolved_by := none }],
        allowed_ips :=
          [{ id := 3, ip_address := "10.0.0.5", description := none,
             created_by := some 1 }] }
    adminProfileEx
    { id := 7, profile_id := 2, ip_address := "10.0.0.5",
      status := "PENDING", requested_at := 10,
      resolved_at := none, resolved_by := none }
    (by decide) rfl (by decide) rfl
  ⟨h.1, h.2 (by decide)⟩

/-- Reading a single row by a key column equals first-match lookup whenever
the key column is duplicate-free, as a primary key is. -/
theorem selectSingle_eq_find_of_nodup {α : Type} (f : α → Nat) (k : Nat)
    (xs : List α) (h : (xs.map f).Nodup) :
    selectSingle (fun x => f x == k) xs = xs.find? (fun x => f x == k) := by
  induction xs with
  | nil => rfl
  | cons a as ih =>
    rw [List.map_cons, List.nodup_cons] at h
    by_cases hk : f a = k
    · have hfa : (f a == k) = true := by simp [hk]
      have hfilter : as.filter (fun x => f x == k) = [] := by
        rw [List.filter_eq_nil_iff]
        intro x hx
        simp only [beq_iff_eq]
        intro hfx
        exact h.1 (hk ▸ hfx ▸ List.mem_map_of_mem f hx)
      rw [List.find?_cons_of_pos (p := fun x => f x == k) as hfa]
      unfold selectSingle
      rw [List.filter_cons_of_pos (p := fun x => f x == k) hfa, hfilter]
    · have hfa : ¬ ((f a == k) = true) := by simp [hk]
      rw [List.find?_cons_of_neg (p := fun x => f x == k) as hfa, ← ih h.2]
      unfold selectSingle
      rw [List.filter_cons_of_neg (p := fun x => f x == k) hfa]

/-- The status query as the spec words it: return the `status` and
`resolved_at` of the access request carrying the given id, or the 404
not-found response when no request carries it. -/
def getRequestStatusSpec (request_id : Uuid) (db : DB) : HttpResponse :=
  match db.access_requests.find? (fun r => r.id == request_id) with
  | none => { code := 404, error := some "Request not found" }
  | some r =>
    { code := 200, statusField := some r.status,
      resolved_at := some r.resolved_at }

/-- Claim C9: under the primary-key uniqueness of request ids, the GET status
handler is a pure read — it leaves the registry exactly as it was and its
response is the spec-side lookup: the status and resolution time of the
matching request when the id exists, 404 otherwise. -/
theorem c9_status_query_pure_read (request_id : Uuid) (db : DB)
    (h : (db.access_requests.map (fun r => r.id)).Nodup) :
    (getRequestStatus request_id db).2 = db ∧
    (getRequestStatus request_id db).1 = getRequestStatusSpec request_id db := by
  have hsel := selectSingle_eq_find_of_nodup (fun r : AccessRequest => r.id)
    request_id db.access_requests h
  constructor
  · unfold getRequestStatus
    cases hfind : selectSingle (fun r => r.id == request_id) db.access_requests <;>
      simp [hfind]
  · unfold getRequestStatus getRequestStatusSpec
    rw [← hsel]
    cases hfind : selectSingle (fun r => r.id == request_id) db.access_requests <;>
      simp [hfind]

/-- Witness for C9: polling the demo pending request returns its status and
leaves the registry unchanged. -/
theorem c9_status_query_pure_read_witness :
    (getRequestStatus 7
        { baseDb with access_requests :=
            [{ id := 7, profile_id := 2, ip_address := "10.0.0.5",
               status := "PENDING", requested_at := 10,
               resolved_at := none, resolved_by := none }] }).2
      = { baseDb with access_requests :=
            [{ id := 7, profile_id := 2, ip_address := "10.0.0.5",
               status := "PENDING", requested_at := 10,
               resolved_at := none, resolved_by := none }] } ∧
    (getRequestStatus 7
        { baseDb with access_requests :=
            [{ id := 7, profile_id := 2, ip_address := "10.0.0.5",
               status := "PENDING", requested_at := 10,
               resolved_at := none, resolved_by := none }] }).1
      = getRequestStatusSpec 7
          { baseDb with access_requests :=
              [{ id := 7, profile_id := 2, ip_address := "10.0.0.5",
                 status := "PENDING", requested_at := 10,
                 resolved_at := none, resolved_by := none }] } :=
  c9_status_query_pure_read 7
    { baseDb with access_requests :=
        [{ id := 7, profile_id := 2, ip_address := "10.0.0.5",
           status := "PENDING", requested_at := 10,
           resolved_at := none, resolved_by := none }] }
    (by decide)

/-- A `.single()` read over rows none of which match reports no data. -/
theorem selectSingle_eq_none_of_filter_nil (p : α → Bool) (xs : List α)
    (h : xs.filter p = []) : selectSingle p xs = none := by
  unfold selectSingle
  rw [h]

/-- A `.single()` read over rows exactly one of which matches returns it. -/
theorem selectSingle_eq_some_of_filter_singleton (p : α → Bool) (xs : List α)
    (a : α) (h : xs.filter p = [a]) : selectSingle p xs = some a := by
  unfold selectSingle
  rw [h]

/-- Claim C4: a CS profile with correct credentials logging in from an address
absent from `allowed_ips` and with no pending request is deferred with the id
of the freshly inserted PENDING row; a second identical login before
resolution is deferred with the same id and inserts nothing. -/
theorem c4_first_defer_second_reuses_id
    (authStore : String → String → Option AuthUser)
    (email password ip : String) (db : DB) (u : AuthUser) (prof : Profile)
    (hauth : authStore email password = some u)
    (hprof : selectSingle (fun p => p.id == u.id) db.profiles = some prof)
    (hrole : prof.role = "CS")
    (hip : db.allowed_ips.filter (fun a => a.ip_address == ip) = [])
    (hnopending : db.access_requests.filter
        (fun r => r.profile_id == u.id && r.ip_address == ip &&
          r.status == "PENDING") = []) :
    attemptLogin authStore email password ip db
      = (deferredResp db.nextId,
         { db with
             access_requests := db.access_requests ++
               [{ id := db.nextId, profile_id := u.id, ip_address := ip,
                  status := "PENDING", requested_at := db.now,
                  resolved_at := none, resolved_by := none }],
             nextId := db.nextId + 1 }) ∧
    attemptLogin authStore email password ip
        { db with
            access_requests := db.access_requests ++
              [{ id := db.nextId, profile_id := u.id, ip_address := ip,
                 status := "PENDING", requested_at := db.now,
                 resolved_at := none, resolved_by := none }],
            nextId := db.nextId + 1 }
      = (deferredResp db.nextId,
         { db with
             access_requests := db.access_requests ++
               [{ id := db.nextId, profile_id := u.id, ip_address := ip,
                  status := "PENDING", requested_at := db.now,
                  resolved_at := none, resolved_by := none }],
             nextId := db.nextId + 1 }) := by
  have hipN : selectSingle (fun a => a.ip_address == ip) db.allowed_ips
      = none := selectSingle_eq_none_of_filter_nil _ _ hip
  have hpendN : pendingCheck u.id ip db = none := by
    unfold pendingCheck
    rw [selectSingle_eq_none_of_filter_nil _ _ hnopending]
    rfl
  have hpend2 : pendingCheck u.id ip
      { db with
          access_requests := db.access_requests ++
            [{ id := db.nextId, profile_id := u.id, ip_address := ip,
               status := "PENDING", requested_at := db.now,
               resolved_at := none, resolved_by := none }],
          nextId := db.nextId + 1 }
      = some db.nextId := by
    unfold pendingCheck
    rw [selectSingle_eq_some_of_filter_singleton _ _
      { id := db.nextId, profile_id := u.id, ip_address := ip,
        status := "PENDING", requested_at := db.now,
        resolved_at := none, resolved_by := none }
      (by simp [List.filter_append, hnopending])]
    rfl
  constructor
  · simp [attemptLogin, secureLoginPost, hauth, hprof, hrole, hipN, hpendN,
      pendingInsert]
  · simp [attemptLogin, secureLoginPost, hauth, hprof, hrole, hipN, hpend2]

/-- Witness for C4: the demo CS user from the unlisted address 10.0.0.5 on an
empty registry is deferred with the fresh request id 100, and the repeated
call is deferred with id 100 again without a second insert. -/
theorem c4_first_defer_second_reuses_id_witness :
    attemptLogin okAuth "cs@fmf.com" "password123" "10.0.0.5" baseDb
      = (deferredResp 100,
         { baseDb with
             access_requests :=
               [{ id := 100, profile_id := 2, ip_address := "10.0.0.5",
                  status := "PENDING", requested_at := 50,
                  resolved_at := none, resolved_by := none }],
             nextId := 101 }) ∧
    attemptLogin okAuth "cs@fmf.com" "password123" "10.0.0.5"
        { baseDb with
            access_requests :=
              [{ id := 100, profile_id := 2, ip_address := "10.0.0.5",
                 status := "PENDING", requested_at := 50,
                 resolved_at := none, resolved_by := none }],
            nextId := 101 }
      = (deferredResp 100,
         { baseDb with
             access_requests :=
               [{ id := 100, profile_id := 2, ip_address := "10.0.0.5",
                  status := "PENDING", requested_at := 50,
                  resolved_at := none, resolved_by := none }],
             nextId := 101 }) :=
  c4_first_defer_second_reuses_id okAuth "cs@fmf.com" "password123" "10.0.0.5"
    baseDb { id := 2, session := "sess-cs" } csProfileEx
    (by decide) (by decide) rfl (by decide) (by decide)

/-- Claim C6: approving a pending request and then logging in with correct
credentials as the requesting CS profile from the request's address is
granted: the APPROVE path puts the address into `allowed_ips` (or finds it
already there) and the login's lookup finds it. The `huniq` hypothesis is the
UNIQUE constraint of `allowed_ips.ip_address`. -/
theorem c6_approve_then_login_granted
    (authStore : String → String → Option AuthUser)
    (email password : String) (adminId reqId : Uuid) (db : DB)
    (adminProf : Profile) (req : AccessRequest) (u : AuthUser) (csProf : Profile)
    (hadmin : selectSingle (fun p => p.id == adminId) db.profiles = some adminProf)
    (hadminRole : adminProf.role = "ADMIN")
    (hreq : selectSingle (fun r => r.id == reqId) db.access_requests = some req)
    (hpending : req.status = "PENDING")
    (hauth : authStore email password = some u)
    (hcs : selectSingle (fun p => p.id == u.id) db.profiles = some csProf)
    (hcsRole : csProf.role = "CS")
    (huniq : (db.allowed_ips.filter
        (fun a => a.ip_address == req.ip_address)).length ≤ 1) :
    (attemptLogin authStore email password req.ip_address
        ((resolveRequest (some adminId) reqId "APPROVE" db).2)).1
      = grantedResp u { role := csProf.role, full_name := csProf.full_name } := by
  have hres : (resolveRequest (some adminId) reqId "APPROVE" db).2
      = insertAllowedIp req.ip_address adminId
          { db with access_requests := db.access_requests.map (fun r =>
              if r.id == reqId then
                { r with status := "APPROVED", resolved_at := some db.now,
                         resolved_by := some adminId }
              else r) } := by
    simp [resolveRequest, hadmin, hadminRole, hreq, hpending]
  rw [hres]
  by_cases hmem : db.allowed_ips.any
      (fun a => a.ip_address == req.ip_address) = true
  · obtain ⟨x, hxmem, hxp⟩ := List.any_eq_true.mp hmem
    have hxfil : x ∈ db.allowed_ips.filter
        (fun a => a.ip_address == req.ip_address) :=
      List.mem_filter.mpr ⟨hxmem, hxp⟩
    have hlen1 : (db.allowed_ips.filter
        (fun a => a.ip_address == req.ip_address)).length = 1 := by
      have hpos : 0 < (db.allowed_ips.filter
          (fun a => a.ip_address == req.ip_address)).length :=
        List.length_pos.mpr (List.ne_nil_of_mem hxfil)
      omega
    obtain ⟨a, ha⟩ := List.length_eq_one.mp hlen1
    have hipS : selectSingle (fun z => z.ip_address == req.ip_address)
        db.allowed_ips = some a :=
      selectSingle_eq_some_of_filter_singleton _ _ _ ha
    simp [insertAllowedIp, hmem, attemptLogin, secureLoginPost, hauth, hcs,
      hcsRole, hipS]
  · have hmemF : db.allowed_ips.any
        (fun a => a.ip_address == req.ip_address) = false := by
      simpa using hmem
    have hnil : db.allowed_ips.filter
        (fun a => a.ip_address == req.ip_address) = [] := by
      rw [List.filter_eq_nil_iff]
      intro x hx hpx
      exact hmem (List.any_eq_true.mpr ⟨x, hx, hpx⟩)
    have hipS : selectSingle (fun z => z.ip_address == req.ip_address)
        (db.allowed_ips ++
          [{ id := db.nextId, ip_address := req.ip_address,
             description := some "Auto-approved for CS user access",
             created_by := some adminId }]) = some
          { id := db.nextId, ip_address := req.ip_address,
            description := some "Auto-approved for CS user access",
            created_by := some adminId } :=
      selectSingle_eq_some_of_filter_singleton _ _ _
        (by simp [List.filter_append, hnil])
    simp [insertAllowedIp, hmemF, attemptLogin, secureLoginPost, hauth, hcs,
      hcsRole, hipS]

/-- Witness for C6: approving the demo pending request for 10.0.0.5 and then
logging in as the demo CS user from that address is granted. -/
theorem c6_approve_then_login_granted_witness :
    (attemptLogin okAuth "cs@fmf.com" "password123" "10.0.0.5"
        ((resolveRequest (some 1) 7 "APPROVE"
          { baseDb with access_requests :=
              [{ id := 7, profile_id := 2, ip_address := "10.0.0.5",
                 status := "PENDING", requested_at := 10,
                 resolved_at := none, resolved_by := none }] }).2)).1
      = grantedResp { id := 2, session := "sess-cs" }
          { role := "CS", full_name := "Customer Service" } :=
  c6_approve_then_login_granted okAuth "cs@fmf.com" "password123" 1 7
    { baseDb with access_requests :=
        [{ id := 7, profile_id := 2, ip_address := "10.0.0.5",
           status := "PENDING", requested_at := 10,
           resolved_at := none, resolved_by := none }] }
    adminProfileEx
    { id := 7, profile_id := 2, ip_address := "10.0.0.5",
      status := "PENDING", requested_at := 10,
      resolved_at := none, resolved_by := none }
    { id := 2, session := "sess-cs" } csProfileEx
    (by decide) rfl (by decide) rfl (by decide) (by decide) rfl (by decide)

/-- A `.single()` read over a row-wise transformed table is the transformed
read, when the transformation does not change which rows match. -/
theorem selectSingle_map (f : α → α) (p : α → Bool) (xs : List α)
    (hf : ∀ x, p (f x) = p x) :
    selectSingle p (xs.map f) = (selectSingle p xs).map f := by
  unfold selectSingle
  rw [List.filter_map]
  have hcong : xs.filter (p ∘ f) = xs.filter p :=
    List.filter_congr (fun x _ => hf x)
  rw [hcong]
  cases hx : xs.filter p with
  | nil => rfl
  | cons a as => cases as <;> rfl

/-- Forget the `is_active` flag of a profile row: the projection of `profiles`
onto what the secure-login handler selects (`id` for the lookup, `role` and
`full_name` for the view). -/
def stripActive (p : Profile) : Profile :=
  { p with is_active := true }

/-- The registry with every profile's `is_active` flag forgotten. -/
def stripDb (db : DB) : DB :=
  { db with profiles := db.profiles.map stripActive }

/-- The secure-login response is unchanged when every profile's `is_active`
flag is forgotten: the handler reads only `role` and `full_name`. -/
theorem secureLoginPost_stripDb (a : Option AuthUser) (ip : String) (db : DB) :
    (secureLoginPost a ip (stripDb db)).1 = (secureLoginPost a ip db).1 := by
  cases a with
  | none => rfl
  | some u =>
    have hips : (stripDb db).allowed_ips = db.allowed_ips := rfl
    have hpc : pendingCheck u.id ip (stripDb db) = pendingCheck u.id ip db := rfl
    have hsel : selectSingle (fun p => p.id == u.id) (stripDb db).profiles
        = (selectSingle (fun p => p.id == u.id) db.profiles).map stripActive :=
      selectSingle_map stripActive _ db.profiles (fun x => rfl)
    simp only [secureLoginPost, hsel, hips, hpc]
    cases hp : selectSingle (fun p => p.id == u.id) db.profiles with
    | none => rfl
    | some prof =>
      simp only [Option.map_some']
      by_cases h1 : (prof.role == "ADMIN") = true
      · simp [stripActive, h1]
      · rw [Bool.not_eq_true] at h1
        by_cases h2 : (prof.role == "CS") = true
        · simp only [stripActive, h1, h2, Bool.false_eq_true, if_false,
            if_true]
          cases hal : selectSingle
              (fun z => z.ip_address == ip) db.allowed_ips with
          | some x => rfl
          | none =>
            cases hpcv : pendingCheck u.id ip db with
            | some r => rfl
            | none => rfl
        · rw [Bool.not_eq_true] at h2
          simp [stripActive, h1, h2]

/-- Claim C10: the login outcome does not depend on `is_active` — two
registries equal after forgetting every profile's `is_active` flag produce
the same `attemptLogin` response for all credentials and addresses. -/
theorem c10_outcome_independent_of_is_active
    (authStore : String → String → Option AuthUser)
    (email password ip : String) (db db' : DB)
    (h : stripDb db = stripDb db') :
    (attemptLogin authStore email password ip db).1
      = (attemptLogin authStore email password ip db').1 := by
  unfold attemptLogin
  rw [← secureLoginPost_stripDb, h, secureLoginPost_stripDb]

/-- Witness for C10: deactivating the demo CS profile changes nothing in the
login response. -/
theorem c10_outcome_independent_of_is_active_witness :
    (attemptLogin okAuth "cs@fmf.com" "password123" "10.0.0.5" baseDb).1
      = (attemptLogin okAuth "cs@fmf.com" "password123" "10.0.0.5"
          { baseDb with profiles :=
              [adminProfileEx, { csProfileEx with is_active := false }] }).1 :=
  c10_outcome_independent_of_is_active okAuth "cs@fmf.com" "password123"
    "10.0.0.5" baseDb
    { baseDb with profiles :=
        [adminProfileEx, { csProfileEx with is_active := false }] }
    (by decide)

/-- Number of PENDING `access_requests` rows for a (profile, address) pair. -/
def countPending (uid : Uuid) (ip : String) (db : DB) : Nat :=
  (db.access_requests.filter
    (fun r => r.profile_id == uid && r.ip_address == ip &&
      r.status == "PENDING")).length

/-- Two overlapping secure-login invocations for the same CS profile and
address, interleaved as the serverless platform may schedule them: both run
the step-4b pending-request check (`pendingCheck`) against the same registry
snapshot before either insert commits; each one that saw no pending request
then runs its insert (`pendingInsert`). These are exactly the two storage
calls of the handler, which performs them as separate, non-atomic
operations. -/
def raceInterleaving (uid : Uuid) (ip : String) (db : DB) : DB :=
  match pendingCheck uid ip db with
  | none => (pendingInsert uid ip (pendingInsert uid ip db).2).2
  | some _ => db

/-- Claim C1 fails on the code: the check-then-insert of step 4b is a plain
read-then-write — the migrations put no uniqueness constraint on
`access_requests` beyond the `id` primary key — so the interleaving of two
concurrent logins for the same (profile, address) pair leaves two PENDING
rows, violating the at-most-one-PENDING invariant. -/
theorem c1_check_then_insert_race_two_pending :
    countPending 2 "10.0.0.5" (raceInterleaving 2 "10.0.0.5" baseDb) = 2 ∧
    ¬ ["profile_id", "ip_address", "status"] ∈ accessRequestsUniqueColumns ∧
    ¬ ["profile_id", "ip_address"] ∈ accessRequestsUniqueColumns := by
  decide
